import Mathlib

/-!
Verification development for the AI-Health-Platform risk-scoring engine.

The Python sources under `backend/app/ml` and `backend/app/api` are shallowly
embedded below: probabilities and clinical measurements become exact rationals
(`ℚ`), Python dicts become association lists or `Option`-valued records, the
opaque fitted classifier and scaler become function fields of a model
structure, and fallible operations return `Except`/`Bool × String` exactly as
the source does.  Each definition names the source function it embeds.
-/

namespace AIHealth

/-- Rounding helper embedding Python's `round(x, 3)` on the exact rational
value: round to the nearest multiple of 1/1000, ties going to the even
multiple (Python's banker's rounding). -/
def round3 (q : ℚ) : ℚ :=
  let n : ℤ := Int.floor (q * 1000)
  let frac : ℚ := q * 1000 - (n : ℚ)
  let m : ℤ :=
    if frac > 1 / 2 then n + 1
    else if frac < 1 / 2 then n
    else if n % 2 = 0 then n else n + 1
  (m : ℚ) / 1000

/-- Embeds `BaseHealthPredictor.calculate_confidence`
(`backend/app/ml/base_predictor.py`, lines 107-122) for the binary case: the
probability vector is the pair `(p0, p1)`; the result is
`round(max(abs(max(p0, p1) - 0.5) * 2, 0.5), 3)`. -/
def calculate_confidence (p0 p1 : ℚ) : ℚ :=
  let max_proba := max p0 p1
  let confidence := |max_proba - 1 / 2| * 2
  round3 (max confidence (1 / 2))

/-- Embeds `get_risk_level` (`backend/app/config.py`, lines 186-193), with the
thresholds from `RISK_THRESHOLDS` (low = 0.3, moderate = 0.6). -/
def get_risk_level (score : ℚ) : String :=
  if score < 3 / 10 then ("low")
  else if score < 6 / 10 then ("moderate")
  else ("high")

/-- Embeds the inline risk-level branch of `HeartDiseasePredictor.predict`
(`backend/app/ml/heart_model.py`, lines 86-91). -/
def heartRiskLevel (risk_probability : ℚ) : String :=
  if risk_probability < 3 / 10 then ("low")
  else if risk_probability < 6 / 10 then ("medium")
  else ("high")

/-- Embeds the inline risk-level branch of `PCOSPredictor.predict`
(`backend/app/ml/pcos_model.py`, lines 126-131). -/
def pcosRiskLevel (risk_probability : ℚ) : String :=
  if risk_probability < 3 / 10 then ("low")
  else if risk_probability < 6 / 10 then ("medium")
  else ("high")

/-- Embeds `BaseHealthPredictor.should_consult_doctor`
(`backend/app/ml/base_predictor.py`, lines 124-140). -/
def should_consult_doctor (risk_score confidence : ℚ) (ood : Bool) : Bool :=
  if risk_score > 7 / 10 ∧ confidence > 7 / 10 then true
  else if confidence < 6 / 10 then true
  else if ood then true
  else false

/-- Embeds the `should_consult` expression of the heart endpoint
`predict_heart_disease` (`backend/app/api/predictions.py`, line 157):
`result['risk_level'] in ['medium', 'high']`. -/
def heart_api_should_consult (risk_level : String) : Bool :=
  [("medium"), ("high")].contains risk_level

/-- Embeds the `should_consult` expression of the PCOS endpoint
`predict_pcos` (`backend/app/api/predictions.py`, line 201). -/
def pcos_api_should_consult (risk_level : String) : Bool :=
  [("medium"), ("high")].contains risk_level

/-- Embeds the z-score of `BaseHealthPredictor.detect_ood`
(`backend/app/ml/base_predictor.py`, line 101):
`abs((value - mean) / (std + 1e-6))`. -/
def zScore (value mean std : ℚ) : ℚ :=
  |(value - mean) / (std + 1 / 1000000)|

/-- Loop body of `BaseHealthPredictor.detect_ood`: scan the feature items in
dict order, skip features absent from the training statistics, and return
true at the first feature whose z-score exceeds 3. -/
def detectOODScan (stats : String → Option (ℚ × ℚ)) :
    List (String × ℚ) → Bool
  | [] => false
  | (feature, value) :: rest =>
    match stats feature with
    | none => detectOODScan stats rest
    | some (mean, std) =>
      if zScore value mean std > 3 then true else detectOODScan stats rest

/-- Embeds `BaseHealthPredictor.detect_ood`
(`backend/app/ml/base_predictor.py`, lines 85-105).  `none` models a falsy
`self.training_stats` (absent or empty); the feature dict is an association
list in insertion order. -/
def detect_ood (training_stats : Option (String → Option (ℚ × ℚ)))
    (features : List (String × ℚ)) : Bool :=
  match training_stats with
  | none => false
  | some stats => detectOODScan stats features

/-- Raw diabetes feature dict (`features: Dict` in
`backend/app/ml/diabetes_model.py`); `none` models an absent key. -/
structure DFeatures where
  pregnancies : Option ℚ
  glucose : Option ℚ
  blood_pressure : Option ℚ
  skin_thickness : Option ℚ
  insulin : Option ℚ
  bmi : Option ℚ
  dpf : Option ℚ
  age : Option ℚ

/-- Dict lookup `features[field]` / `field in features` for `DFeatures`,
keyed by the Python field names. -/
def dLookup (f : DFeatures) (field : String) : Option ℚ :=
  if field = "Pregnancies" then f.pregnancies
  else if field = "Glucose" then f.glucose
  else if field = "BloodPressure" then f.blood_pressure
  else if field = "SkinThickness" then f.skin_thickness
  else if field = "Insulin" then f.insulin
  else if field = "BMI" then f.bmi
  else if field = "DiabetesPedigreeFunction" then f.dpf
  else if field = "Age" then f.age
  else none

/-- The `required_fields` list of `DiabetesPredictor.validate_input`
(`backend/app/ml/diabetes_model.py`, lines 34-37). -/
def requiredFields : List String :=
  [("Pregnancies"), ("Glucose"), ("BloodPressure"), ("SkinThickness"),
   ("Insulin"), ("BMI"), ("DiabetesPedigreeFunction"), ("Age")]

/-- The `validations` dict of `DiabetesPredictor.validate_input`
(`backend/app/ml/diabetes_model.py`, lines 45-54), in insertion order. -/
def validations : List (String × ℚ × ℚ) :=
  [(("Pregnancies"), 0, 20), (("Glucose"), 40, 400),
   (("BloodPressure"), 40, 200), (("SkinThickness"), 0, 100),
   (("Insulin"), 0, 1000), (("BMI"), 10, 60),
   (("DiabetesPedigreeFunction"), 0, 3), (("Age"), 18, 120)]

/-- First loop of `validate_input`: the first required field not present in
the dict, in list order. -/
def firstMissing (f : DFeatures) : List String → Option String
  | [] => none
  | field :: rest =>
    if (dLookup f field).isNone then some field else firstMissing f rest

/-- Second loop of `validate_input`: the first field whose value violates
`min_val <= value <= max_val`, in dict order.  The loop only runs once every
required field is present, so the `none` lookup case merely recurses. -/
def firstOutOfRange (f : DFeatures) :
    List (String × ℚ × ℚ) → Option (String × ℚ × ℚ)
  | [] => none
  | (field, min_val, max_val) :: rest =>
    match dLookup f field with
    | none => firstOutOfRange f rest
    | some value =>
      if min_val ≤ value ∧ value ≤ max_val then firstOutOfRange f rest
      else some (field, min_val, max_val)

/-- Embeds `DiabetesPredictor.validate_input`
(`backend/app/ml/diabetes_model.py`, lines 32-61): returns
`(is_valid, error_message)`. -/
def validate_input (f : DFeatures) : Bool × String :=
  match firstMissing f requiredFields with
  | some field => (false, "Missing required field: " ++ field)
  | none =>
    match firstOutOfRange f validations with
    | some (field, min_val, max_val) =>
      (false, field ++ " out of range (" ++ toString min_val ++ "-" ++
        toString max_val ++ ")")
    | none => (true, "")

/-- One dict entry, present only when the field is. -/
def optEntry (field : String) (v : Option ℚ) : List (String × ℚ) :=
  match v with
  | none => []
  | some x => [(field, x)]

/-- The `features.items()` view of a `DFeatures` dict in the insertion order
used by the API layer (`backend/app/api/predictions.py`, lines 85-94). -/
def dItems (f : DFeatures) : List (String × ℚ) :=
  optEntry ("Pregnancies") f.pregnancies ++ optEntry ("Glucose") f.glucose ++
  optEntry ("BloodPressure") f.blood_pressure ++
  optEntry ("SkinThickness") f.skin_thickness ++
  optEntry ("Insulin") f.insulin ++ optEntry ("BMI") f.bmi ++
  optEntry ("DiabetesPedigreeFunction") f.dpf ++ optEntry ("Age") f.age

/-- Age-group bucketing of `DiabetesPredictor.prepare_features`
(`backend/app/ml/diabetes_model.py`, lines 83-90). -/
def age_group (age : ℚ) : ℚ :=
  if age ≤ 30 then 0 else if age ≤ 45 then 1 else if age ≤ 60 then 2 else 3

/-- BMI bucketing of `DiabetesPredictor.prepare_features`
(`backend/app/ml/diabetes_model.py`, lines 93-100). -/
def bmi_cat (bmi : ℚ) : ℚ :=
  if bmi < 18.5 then 0 else if bmi < 25 then 1 else if bmi < 30 then 2 else 3

/-- Glucose bucketing of `DiabetesPredictor.prepare_features`
(`backend/app/ml/diabetes_model.py`, lines 103-108). -/
def glucose_cat (glucose : ℚ) : ℚ :=
  if glucose < 100 then 0 else if glucose < 125 then 1 else 2

/-- Reads a dict value that `predict` has already validated as present;
in the Python source an absent key would raise `KeyError`, but
`prepare_features` and `explain` only run after `validate_input` succeeds,
which forces every field to be present. -/
def dVal (o : Option ℚ) : ℚ := o.getD 0

/-- Embeds `DiabetesPredictor.prepare_features`
(`backend/app/ml/diabetes_model.py`, lines 63-119): the 8 base features in
order followed by the 5 engineered features. -/
def prepare_features (f : DFeatures) : List ℚ :=
  [dVal f.pregnancies, dVal f.glucose, dVal f.blood_pressure,
   dVal f.skin_thickness, dVal f.insulin, dVal f.bmi, dVal f.dpf, dVal f.age,
   age_group (dVal f.age), bmi_cat (dVal f.bmi), glucose_cat (dVal f.glucose),
   dVal f.bmi * dVal f.age, dVal f.glucose * dVal f.bmi]

/-- Embeds the `ContributingFactor` pydantic model
(`backend/app/ml/base_predictor.py`, lines 10-16). -/
structure ContributingFactor where
  name : String
  value : ℚ
  impact : String
  modifiable : Bool
  description : String

/-- BMI branch of `DiabetesPredictor.explain`
(`backend/app/ml/diabetes_model.py`, lines 174-190).  Python's `f"{bmi:.1f}"`
number formatting is abstracted to `toString`. -/
def bmiFactor (bmi : ℚ) : List ContributingFactor :=
  if bmi ≥ 30 then
    [{ name := "BMI", value := bmi, impact := "high", modifiable := true,
       description := "BMI of " ++ toString bmi ++
         " is in the obese range (≥30)" }]
  else if bmi ≥ 25 then
    [{ name := "BMI", value := bmi, impact := "medium", modifiable := true,
       description := "BMI of " ++ toString bmi ++
         " is in the overweight range (25-30)" }]
  else []

/-- Glucose branch of `DiabetesPredictor.explain`
(`backend/app/ml/diabetes_model.py`, lines 193-209). -/
def glucoseFactor (glucose : ℚ) : List ContributingFactor :=
  if glucose ≥ 126 then
    [{ name := "Glucose", value := glucose, impact := "high",
       modifiable := true,
       description := "Fasting glucose of " ++ toString glucose ++
         " mg/dL is in diabetic range (≥126)" }]
  else if glucose ≥ 100 then
    [{ name := "Glucose", value := glucose, impact := "medium",
       modifiable := true,
       description := "Fasting glucose of " ++ toString glucose ++
         " mg/dL is in prediabetic range (100-125)" }]
  else []

/-- Age branch of `DiabetesPredictor.explain`
(`backend/app/ml/diabetes_model.py`, lines 212-220). -/
def ageFactor (age : ℚ) : List ContributingFactor :=
  if age ≥ 45 then
    [{ name := "Age", value := age, impact := "medium", modifiable := false,
       description := "Age " ++ toString age ++ " increases diabetes risk" }]
  else []

/-- Blood-pressure branch of `DiabetesPredictor.explain`
(`backend/app/ml/diabetes_model.py`, lines 223-231). -/
def bpFactor (bp : ℚ) : List ContributingFactor :=
  if bp ≥ 140 then
    [{ name := "Blood Pressure", value := bp, impact := "medium",
       modifiable := true,
       description := "Blood pressure of " ++ toString bp ++
         " mmHg is elevated (≥140)" }]
  else []

/-- Family-history branch of `DiabetesPredictor.explain`
(`backend/app/ml/diabetes_model.py`, lines 234-242). -/
def pedigreeFactor (pedigree : ℚ) : List ContributingFactor :=
  if pedigree > 1 / 2 then
    [{ name := "Family History", value := pedigree, impact := "medium",
       modifiable := false,
       description := "Strong family history of diabetes" }]
  else []

/-- The `contributing_factors` list built by `DiabetesPredictor.explain`
(`backend/app/ml/diabetes_model.py`, lines 170-242), appended in source
order: BMI, Glucose, Age, Blood Pressure, Family History.  (The
`feature_importance` dict the source builds at lines 165-168 is never used
and is omitted.) -/
def diabetes_contributing_factors (f : DFeatures) : List ContributingFactor :=
  bmiFactor (dVal f.bmi) ++ glucoseFactor (dVal f.glucose) ++
  ageFactor (dVal f.age) ++ bpFactor (dVal f.blood_pressure) ++
  pedigreeFactor (dVal f.dpf)

/-- Narrative text of `DiabetesPredictor.explain`
(`backend/app/ml/diabetes_model.py`, lines 244-267); the
`f"{prediction*100:.1f}"` percentage formatting is abstracted to
`toString`. -/
def diabetes_explanation (prediction : ℚ)
    (contributing_factors : List ContributingFactor) : String :=
  let risk_level := get_risk_level prediction
  let pct := toString (prediction * 100)
  let core :=
    if risk_level = "low" then
      ("Your diabetes risk is LOW (" ++ pct ++ "%). " ++
       "Your current health metrics are within healthy ranges. " ++
       "Continue maintaining a healthy lifestyle with regular exercise and balanced diet.")
    else if risk_level = "moderate" then
      ("Your diabetes risk is MODERATE (" ++ pct ++ "%). " ++
       (if contributing_factors.isEmpty then ("")
        else ("Key factors: " ++
          String.intercalate (", ")
            ((contributing_factors.take 2).map (fun c => c.name)) ++ ". ")) ++
       "Consider lifestyle changes such as weight management, regular exercise (150 min/week), " ++
       "and monitoring blood glucose levels. Consult a healthcare provider for personalized advice.")
    else
      ("Your diabetes risk is HIGH (" ++ pct ++ "%). " ++
       (if contributing_factors.isEmpty then ("")
        else ("Significant factors: " ++
          String.intercalate (", ")
            ((contributing_factors.take 3).map (fun c => c.name)) ++ ". ")) ++
       "We strongly recommend consulting a healthcare professional for proper screening and personalized guidance. " ++
       "Early intervention can prevent or delay diabetes onset.")
  core ++ " ⚠️ This is a risk assessment, not a medical diagnosis."

/-- Embeds `DiabetesPredictor.explain`
(`backend/app/ml/diabetes_model.py`, lines 160-269): returns
`(explanation_text, contributing_factors)`. -/
def diabetes_explain (f : DFeatures) (prediction : ℚ) :
    String × List ContributingFactor :=
  let factors := diabetes_contributing_factors f
  (diabetes_explanation prediction factors, factors)

/-- Read-only artifact state of a `DiabetesPredictor` after `load_model`:
the fitted scaler and classifier are opaque deterministic functions, and
`training_stats` is the per-feature mean/std mapping (`none` when falsy). -/
structure DiabetesModel where
  scale : List ℚ → List ℚ
  predict_proba : List ℚ → ℚ × ℚ
  training_stats : Option (String → Option (ℚ × ℚ))

/-- Embeds the `PredictionResult` pydantic model
(`backend/app/ml/base_predictor.py`, lines 19-28). -/
structure PredictionResult where
  disease_type : String
  risk_score : ℚ
  risk_level : String
  confidence : ℚ
  explanation : String
  contributing_factors : List ContributingFactor
  should_consult : Bool
  ood_detected : Bool

/-- Embeds `DiabetesPredictor.predict`
(`backend/app/ml/diabetes_model.py`, lines 121-158): validate, detect OOD,
prepare and scale features, score, explain, decide consultation; a failed
validation raises `ValueError(f"Invalid input: {error_msg}")`, embedded as
`Except.error`. -/
def dPredict (m : DiabetesModel) (f : DFeatures) :
    Except String PredictionResult :=
  let v := validate_input f
  if v.1 then
    let ood_detected := detect_ood m.training_stats (dItems f)
    let X_scaled := m.scale (prepare_features f)
    let proba := m.predict_proba X_scaled
    let risk_score := proba.2
    let ec := diabetes_explain f risk_score
    let confidence := calculate_confidence proba.1 proba.2
    .ok { disease_type := "diabetes",
          risk_score := round3 risk_score,
          risk_level := get_risk_level risk_score,
          confidence := confidence,
          explanation := ec.1,
          contributing_factors := ec.2,
          should_consult :=
            should_consult_doctor risk_score confidence ood_detected,
          ood_detected := ood_detected }
  else
    .error ("Invalid input: " ++ v.2)

/-- State-passing view of `DiabetesPredictor.predict`: the method body only
reads `self` attributes and assigns none of them, so the predictor state is
returned unchanged alongside the result. -/
def dPredictS (m : DiabetesModel) (f : DFeatures) :
    Except String PredictionResult × DiabetesModel :=
  (dPredict m f, m)

/-- Embeds pandas `pd.cut(v, bins, labels)` with its default right-closed
intervals, as used by `DiabetesModelTrainer.engineer_features`
(`backend/ml_training/train_diabetes.py`, lines 48-73): the label for the
first interval `(lo, hi]` containing `v`, and `none` (NaN) when `v` falls
outside every bin. -/
def pdCut : List ℚ → List ℚ → ℚ → Option ℚ
  | lo :: hi :: bins, lab :: labs, v =>
    if lo < v ∧ v ≤ hi then some lab else pdCut (hi :: bins) labs v
  | _, _, _ => none

/-- Training-time age bucket `AgeGroup`
(`backend/ml_training/train_diabetes.py`, line 52). -/
def trainAgeGroup (age : ℚ) : Option ℚ :=
  pdCut [0, 30, 45, 60, 100] [0, 1, 2, 3] age

/-- Training-time BMI bucket `BMI_Category`
(`backend/ml_training/train_diabetes.py`, lines 55-59). -/
def trainBMICategory (bmi : ℚ) : Option ℚ :=
  pdCut [0, 18.5, 25, 30, 100] [0, 1, 2, 3] bmi

/-- Training-time glucose bucket `Glucose_Category`
(`backend/ml_training/train_diabetes.py`, lines 62-66). -/
def trainGlucoseCategory (glucose : ℚ) : Option ℚ :=
  pdCut [0, 100, 125, 200] [0, 1, 2] glucose

/-- Default `feature_names` of `HeartDiseasePredictor`
(`backend/app/ml/heart_model.py`, lines 44-47). -/
def heartFeatureNames : List String :=
  [("age"), ("sex"), ("cp"), ("trestbps"), ("chol"), ("fbs"), ("restecg"),
   ("thalach"), ("exang"), ("oldpeak"), ("slope"), ("ca"), ("thal")]

/-- Loop of `HeartDiseasePredictor._prepare_features`
(`backend/app/ml/heart_model.py`, lines 54-63): collect each named feature
from the input dict, raising `ValueError` on the first missing one. -/
def heartCollect (input_data : String → Option ℚ) :
    List String → Except String (List ℚ)
  | [] => .ok []
  | fname :: rest =>
    match input_data fname with
    | none => .error ("Missing required feature: " ++ fname)
    | some v =>
      match heartCollect input_data rest with
      | .error e => .error e
      | .ok vs => .ok (v :: vs)

/-- Embeds `HeartDiseasePredictor._prepare_features`
(`backend/app/ml/heart_model.py`, lines 54-63).  Note: no range check of any
kind is performed here, only presence. -/
def heart_prepare_features (input_data : String → Option ℚ) :
    Except String (List ℚ) :=
  heartCollect input_data heartFeatureNames

/-- Embeds `HeartDiseasePredictor._generate_recommendations`
(`backend/app/ml/heart_model.py`, lines 109-145); `input_data.get(k, d)`
becomes `(input_data k).getD d`. -/
def heartRecommendations (input_data : String → Option ℚ)
    (risk_level : String) : List String :=
  let recs : List String :=
    [("Consult a cardiologist for comprehensive heart health evaluation")] ++
    (if (input_data ("trestbps")).getD 0 > 140 then
      [("Your resting blood pressure is elevated. Monitor regularly and discuss with your doctor")]
     else []) ++
    (if (input_data ("chol")).getD 0 > 240 then
      [("Consider dietary changes to lower cholesterol levels")]
     else []) ++
    (if (input_data ("thalach")).getD 150 < 120 then
      [("Low max heart rate during exercise. Discuss cardiac fitness with your doctor")]
     else []) ++
    (if (input_data ("cp")).getD 0 > 0 then
      [("Chest pain symptoms should be evaluated by a healthcare professional")]
     else []) ++
    (if (input_data ("exang")).getD 0 = 1 then
      [("Exercise-induced angina indicates possible coronary issues - seek evaluation")]
     else []) ++
    (if [("medium"), ("high")].contains risk_level then
      [("Maintain a heart-healthy diet low in saturated fats and sodium"),
       ("Regular moderate exercise (30 min, 5 days/week) as cleared by your doctor")]
     else []) ++
    (if (input_data ("fbs")).getD 0 = 1 then
      [("Elevated fasting blood sugar - consider diabetes screening")]
     else [])
  recs.take 6

/-- Read-only artifact state of a `HeartDiseasePredictor` after
`_load_model`: opaque fitted scaler and classifier, plus
`model_info['metrics'].get('roc_auc')` (`none` when the metric is absent)
and the version tag. -/
structure HeartModel where
  scale : List ℚ → List ℚ
  predict_proba : List ℚ → ℚ × ℚ
  predict_class : List ℚ → ℤ
  roc_auc : Option ℚ
  version : String

/-- Result dict of `HeartDiseasePredictor.predict`
(`backend/app/ml/heart_model.py`, lines 99-107), embedded as a record with
one field per dict key. -/
structure HeartResult where
  risk_score : ℚ
  risk_level : String
  prediction : ℤ
  confidence : ℚ
  model_version : String
  recommendations : List String
  disclaimer : String

/-- Keys of the dict literal returned by `HeartDiseasePredictor.predict`
(`backend/app/ml/heart_model.py`, lines 99-107); there is no
`ood_detected` or `should_consult` key. -/
def heartResultKeys : List String :=
  [("risk_score"), ("risk_level"), ("prediction"), ("confidence"),
   ("model_version"), ("recommendations"), ("disclaimer")]

/-- Embeds `HeartDiseasePredictor.predict`
(`backend/app/ml/heart_model.py`, lines 65-107).  The reported confidence is
`self.model_info.get('metrics', {}).get('roc_auc', 0.85)` — the stored
cross-validation metric with default 0.85 — independent of the prediction
probabilities. -/
def heartPredict (m : HeartModel) (input_data : String → Option ℚ) :
    Except String HeartResult :=
  match heart_prepare_features input_data with
  | .error e => .error e
  | .ok features =>
    let features_scaled := m.scale features
    let risk_probability := (m.predict_proba features_scaled).2
    let risk_level := heartRiskLevel risk_probability
    .ok { risk_score := risk_probability,
          risk_level := risk_level,
          prediction := m.predict_class features_scaled,
          confidence := m.roc_auc.getD (85 / 100),
          model_version := m.version,
          recommendations := heartRecommendations input_data risk_level,
          disclaimer := "This is a screening tool based on statistical analysis. It is NOT a diagnosis. Please consult a cardiologist for proper evaluation." }

/-- Embeds the `PCOSInput` pydantic schema
(`backend/app/ml/pcos_model.py`, lines 12-29); the five optional clinical
measurements default to `None`, embedded as `none`. -/
structure PCOSInput where
  age : ℚ
  bmi : ℚ
  weight : ℚ
  cycle_length : ℚ
  cycle_regularity : ℚ
  weight_gain : ℚ
  hair_growth : ℚ
  skin_darkening : ℚ
  pimples : ℚ
  fast_food : ℚ
  regular_exercise : ℚ
  follicle_count_l : Option ℚ
  follicle_count_r : Option ℚ
  amh : Option ℚ
  lh : Option ℚ
  fsh : Option ℚ

/-- Python's `x or default` applied to an optional numeric field: both
`None` and `0` are falsy, so each is replaced by the default. -/
def pyOr (x : Option ℚ) (default : ℚ) : ℚ :=
  match x with
  | none => default
  | some v => if v = 0 then default else v

/-- The `feature_mapping` dict of `PCOSPredictor._prepare_features`
(`backend/app/ml/pcos_model.py`, lines 76-95), in insertion order. -/
def pcos_feature_mapping (i : PCOSInput) : List (String × ℚ) :=
  [(("Age"), i.age), (("BMI"), i.bmi), (("Weight"), i.weight),
   (("Cycle_length"), i.cycle_length), (("Cycle_RI"), i.cycle_regularity),
   (("Weight_gain"), i.weight_gain), (("Hair_growth"), i.hair_growth),
   (("Skin_darkening"), i.skin_darkening), (("Pimples"), i.pimples),
   (("Fast_food"), i.fast_food), (("Regular_Exercise"), i.regular_exercise),
   (("Follicle_L"), pyOr i.follicle_count_l 6),
   (("Follicle_R"), pyOr i.follicle_count_r 6),
   (("AMH"), pyOr i.amh 3), (("LH"), pyOr i.lh 8), (("FSH"), pyOr i.fsh 6),
   (("FSH_LH"), pyOr i.fsh 6 / pyOr i.lh 8),
   (("Waist_Hip_Ratio"), 85 / 100)]

/-- Embeds `PCOSPredictor._prepare_features`
(`backend/app/ml/pcos_model.py`, lines 72-106): the model's feature names
are looked up in `feature_mapping`, unknown names defaulting to 0. -/
def pcos_prepare_features (i : PCOSInput) (feature_names : List String) :
    List ℚ :=
  feature_names.map (fun fname =>
    ((pcos_feature_mapping i).lookup fname).getD 0)

/-- Read-only artifact state of a `PCOSPredictor` after `_load_model`. -/
structure PCOSModel where
  scale : List ℚ → List ℚ
  predict_proba : List ℚ → ℚ × ℚ
  predict_class : List ℚ → ℤ
  roc_auc : Option ℚ
  version : String
  feature_names : List String

/-- Result dict of `PCOSPredictor.predict`
(`backend/app/ml/pcos_model.py`, lines 139-147), embedded as a record with
one field per dict key. -/
structure PCOSResult where
  risk_score : ℚ
  risk_level : String
  prediction : ℤ
  confidence : ℚ
  model_version : String
  recommendations : List String
  disclaimer : String

/-- Keys of the dict literal returned by `PCOSPredictor.predict`
(`backend/app/ml/pcos_model.py`, lines 139-147); there is no
`ood_detected` or `should_consult` key. -/
def pcosResultKeys : List String :=
  [("risk_score"), ("risk_level"), ("prediction"), ("confidence"),
   ("model_version"), ("recommendations"), ("disclaimer")]

/-- Embeds `PCOSPredictor._generate_recommendations`
(`backend/app/ml/pcos_model.py`, lines 149-180). -/
def pcosRecommendations (i : PCOSInput) (risk_level : String) :
    List String :=
  let recs : List String :=
    [("Consult a gynecologist for comprehensive PCOS evaluation")] ++
    (if i.bmi > 25 then
      [("Weight management through balanced diet and exercise may help improve symptoms")]
     else []) ++
    (if i.cycle_length ≥ 3 then
      [("Track your menstrual cycles and discuss irregularities with your doctor")]
     else []) ++
    (if i.fast_food = 1 then
      [("Consider reducing processed foods and adopting a low-glycemic diet")]
     else []) ++
    (if i.regular_exercise = 0 then
      [("Regular physical activity (30 min/day) can help manage PCOS symptoms")]
     else []) ++
    (if i.hair_growth = 1 ∨ i.pimples = 1 then
      [("Discuss hormonal treatments with your doctor for skin/hair symptoms")]
     else []) ++
    (if risk_level = "high" then
      [("Consider getting hormonal tests (LH, FSH, AMH, testosterone)"),
       ("Ultrasound examination may help confirm diagnosis")]
     else [])
  recs.take 5

/-- Embeds `PCOSPredictor.predict`
(`backend/app/ml/pcos_model.py`, lines 108-147).  As in the heart
predictor, confidence is the stored `roc_auc` metric (default 0.8), not a
function of the probabilities, and no OOD detection is performed. -/
def pcosPredict (m : PCOSModel) (i : PCOSInput) : PCOSResult :=
  let features := pcos_prepare_features i m.feature_names
  let features_scaled := m.scale features
  let risk_probability := (m.predict_proba features_scaled).2
  let risk_level := pcosRiskLevel risk_probability
  { risk_score := risk_probability,
    risk_level := risk_level,
    prediction := m.predict_class features_scaled,
    confidence := m.roc_auc.getD (8 / 10),
    model_version := m.version,
    recommendations := pcosRecommendations i risk_level,
    disclaimer := "This is a screening tool based on statistical analysis. It is NOT a diagnosis. Please consult a gynecologist for proper evaluation." }

/-! Concrete fixtures used to instantiate the theorems below: a heart model
whose classifier returns the probability pair (0.4, 0.6) and whose stored
metrics carry no `roc_auc` entry, a diabetes model returning (0.5, 0.5) with
no training statistics, and concrete input dicts. -/

/-- Concrete heart model artifact: identity scaler, constant classifier
probabilities (0.4, 0.6), no stored `roc_auc` metric. -/
def hm0 : HeartModel :=
  { scale := fun x => x,
    predict_proba := fun _ => (2 / 5, 3 / 5),
    predict_class := fun _ => 1,
    roc_auc := none,
    version := "1.0.0" }

/-- Concrete heart input dict with every required feature present and all
values inside their documented API bounds. -/
def heartInputStd : String → Option ℚ := fun s =>
  [(("age"), (55 : ℚ)), (("sex"), 1), (("cp"), 0), (("trestbps"), 130),
   (("chol"), 246), (("fbs"), 0), (("restecg"), 0), (("thalach"), 150),
   (("exang"), 0), (("oldpeak"), 1), (("slope"), 1), (("ca"), 0),
   (("thal"), 2)].lookup s

/-- Concrete heart input dict identical to `heartInputStd` except for a
serum cholesterol of 10000, far outside the documented bound [100, 600]
(`HeartPredictionRequest.chol`, `backend/app/api/predictions.py`, line 35). -/
def heartInputHighChol : String → Option ℚ := fun s =>
  [(("age"), (55 : ℚ)), (("sex"), 1), (("cp"), 0), (("trestbps"), 130),
   (("chol"), 10000), (("fbs"), 0), (("restecg"), 0), (("thalach"), 150),
   (("exang"), 0), (("oldpeak"), 1), (("slope"), 1), (("ca"), 0),
   (("thal"), 2)].lookup s

/-- Documented bounds of the heart `chol` field
(`backend/app/api/predictions.py`, line 35: `ge=100, le=600`). -/
def heartApiCholBounds : ℚ × ℚ := (100, 600)

/-- Concrete diabetes model artifact: identity scaler, constant classifier
probabilities (0.5, 0.5), falsy training statistics. -/
def dm0 : DiabetesModel :=
  { scale := fun x => x,
    predict_proba := fun _ => (1 / 2, 1 / 2),
    training_stats := none }

/-- Diabetes input with an overweight (not obese) BMI of 27 and a diabetic
glucose of 148; every field is present and in range. -/
def dInputC8 : DFeatures :=
  { pregnancies := some 1, glucose := some 148, blood_pressure := some 80,
    skin_thickness := some 20, insulin := some 80, bmi := some 27,
    dpf := some (1 / 5), age := some 30 }

/-- The end-to-end diabetes scenario input of the specification:
Pregnancies=2, Glucose=148, BloodPressure=72, SkinThickness=35, Insulin=0,
BMI=33.6, DiabetesPedigreeFunction=0.627, Age=50. -/
def dInputC9 : DFeatures :=
  { pregnancies := some 2, glucose := some 148, blood_pressure := some 72,
    skin_thickness := some 35, insulin := some 0, bmi := some 33.6,
    dpf := some 0.627, age := some 50 }

/-- Diabetes input with every field present but a glucose of 1000, outside
the validated range [40, 400]. -/
def dInputBad : DFeatures :=
  { pregnancies := some 1, glucose := some 1000, blood_pressure := some 80,
    skin_thickness := some 20, insulin := some 80, bmi := some 27,
    dpf := some (1 / 5), age := some 30 }

/-- Concrete PCOS input whose optional hormone panel is omitted except for a
provided LH value of exactly 0. -/
def pcosInputW : PCOSInput :=
  { age := 25, bmi := 30, weight := 70, cycle_length := 2,
    cycle_regularity := 0, weight_gain := 0, hair_growth := 0,
    skin_darkening := 0, pimples := 0, fast_food := 0,
    regular_exercise := 1, follicle_count_l := none,
    follicle_count_r := none, amh := none, lh := some 0, fsh := none }

/-- Claim C2 counterexample: at risk_score 0.4 the heart and PCOS
predictors return the label "medium", which differs from the diabetes
label "moderate" and lies outside the claimed label set
{low, moderate, high}, so the risk-level function is not the same across
all diseases. -/
theorem c2_counterexample :
    heartRiskLevel (2 / 5) = "medium" ∧
    pcosRiskLevel (2 / 5) = "medium" ∧
    get_risk_level (2 / 5) = "moderate" ∧
    ([("low"), ("moderate"), ("high")].contains (heartRiskLevel (2 / 5)))
      = false := by
  norm_num [heartRiskLevel, pcosRiskLevel, get_risk_level, List.contains]
  decide

/-- Claim C2 amended: all three predictors grade risk_score with the same
thresholds (low below 0.3, middle band below 0.6, high otherwise) —
boundary behavior 0.29 low, 0.30 middle, 0.59 middle, 0.60 high — but the
diabetes predictor labels the middle band "moderate" while the heart and
PCOS predictors label it "medium". -/
theorem c2_amended (s : ℚ) :
    (get_risk_level s = "low" ↔ s < 3 / 10) ∧
    (get_risk_level s = "moderate" ↔ 3 / 10 ≤ s ∧ s < 6 / 10) ∧
    (get_risk_level s = "high" ↔ 6 / 10 ≤ s) ∧
    (heartRiskLevel s = "low" ↔ s < 3 / 10) ∧
    (heartRiskLevel s = "medium" ↔ 3 / 10 ≤ s ∧ s < 6 / 10) ∧
    (heartRiskLevel s = "high" ↔ 6 / 10 ≤ s) ∧
    pcosRiskLevel s = heartRiskLevel s ∧
    get_risk_level (29 / 100) = "low" ∧
    get_risk_level (3 / 10) = "moderate" ∧
    get_risk_level (59 / 100) = "moderate" ∧
    get_risk_level (6 / 10) = "high" := by
  unfold get_risk_level heartRiskLevel pcosRiskLevel
  refine ⟨?_, ?_, ?_, ?_, ?_, ?_, ?_, by norm_num, by norm_num, by norm_num,
    by norm_num⟩ <;>
    split_ifs with h1 h2 <;> simp_all <;> try linarith

/-- Claim C3 counterexample: at risk_score 0.6 with the heart predictor's
reported confidence 0.85 and no OOD flag, the claimed formula yields
false (risk is not above 0.7, confidence is not below 0.6), but the heart
endpoint sets should_consult to true from the risk level alone. -/
theorem c3_counterexample :
    should_consult_doctor (3 / 5) (85 / 100) false = false ∧
    (heartPredict hm0 heartInputStd).map
      (fun r => heart_api_should_consult r.risk_level) = .ok true := by
  refine ⟨by norm_num [should_consult_doctor], ?_⟩
  have hprep : heart_prepare_features heartInputStd =
      Except.ok [55, 1, 0, 130, 246, 0, 0, 150, 0, 1, 1, 0, 2] := by
    rfl
  unfold heartPredict
  rw [hprep]
  norm_num [hm0, heartRiskLevel, heart_api_should_consult, List.contains,
    Except.map]

/-- Claim C3 amended: the shared policy should_consult_doctor (used by the
diabetes predictor) is true exactly when (risk_score above 0.7 and
confidence above 0.7) or confidence below 0.6 or ood_detected; the heart
and PCOS endpoints instead set should_consult to risk_level being medium
or high, equivalently risk_score at least 0.3, ignoring confidence and
OOD. -/
theorem c3_amended (risk_score confidence : ℚ) (ood : Bool) :
    (should_consult_doctor risk_score confidence ood = true ↔
      (risk_score > 7 / 10 ∧ confidence > 7 / 10) ∨ confidence < 6 / 10 ∨
        ood = true) ∧
    (heart_api_should_consult (heartRiskLevel risk_score) = true ↔
      3 / 10 ≤ risk_score) ∧
    (pcos_api_should_consult (pcosRiskLevel risk_score) = true ↔
      3 / 10 ≤ risk_score) := by
  unfold should_consult_doctor heart_api_should_consult
    pcos_api_should_consult heartRiskLevel pcosRiskLevel
  refine ⟨?_, ?_, ?_⟩ <;> split_ifs with h1 h2 <;> simp_all

/-- Helper for the OOD characterization: the scan of detect_ood fires
exactly when some listed feature has a known mean/std and a z-score above
3. -/
theorem detectOODScan_eq_true_iff (stats : String → Option (ℚ × ℚ))
    (features : List (String × ℚ)) :
    detectOODScan stats features = true ↔
      ∃ p ∈ features, ∃ ms : ℚ × ℚ,
        stats p.1 = some ms ∧ zScore p.2 ms.1 ms.2 > 3 := by
  induction features with
  | nil => simp [detectOODScan]
  | cons hd tl ih =>
    obtain ⟨fname, fval⟩ := hd
    cases h : stats fname with
    | none => simp [detectOODScan, h, ih]
    | some ms =>
      obtain ⟨mean, std⟩ := ms
      by_cases hz : zScore fval mean std > 3
      · constructor
        · intro _
          exact ⟨(fname, fval), List.mem_cons_self _ _, (mean, std), h, hz⟩
        · intro _
          simp [detectOODScan, h, hz]
      · simp [detectOODScan, h, hz, ih]

/-- Claim C5 amended: when training statistics are absent detect_ood
reports false, and when they are present it reports true exactly when
some feature of the input that appears in the statistics has
z = |value - mean| / (std + 1e-6) strictly above 3 (the diabetes
predictor inherits this; the heart and PCOS predictors perform no OOD
detection at all, see the counterexample). -/
theorem c5_amended (stats : String → Option (ℚ × ℚ))
    (features : List (String × ℚ)) :
    detect_ood none features = false ∧
    (detect_ood (some stats) features = true ↔
      ∃ p ∈ features, ∃ ms : ℚ × ℚ,
        stats p.1 = some ms ∧ zScore p.2 ms.1 ms.2 > 3) :=
  ⟨rfl, detectOODScan_eq_true_iff stats features⟩

/-- Claim C5 counterexample: the result dicts of the PCOS and heart
predictors contain no ood_detected key at all, so no OOD contract can
hold for every disease predictor. -/
theorem c5_counterexample :
    pcosResultKeys.contains ("ood_detected") = false ∧
    heartResultKeys.contains ("ood_detected") = false := by
  decide

/-- Claim C7: the diabetes predict computation is deterministic and
stateless — in the state-passing embedding the predictor state is
returned unchanged and a second call on the resulting state with the same
input yields exactly the same result, hence every field of the
PredictionResult coincides. -/
theorem c7_determinism (m : DiabetesModel) (f : DFeatures) :
    (dPredictS m f).2 = m ∧
    (dPredictS ((dPredictS m f).2) f).1 = (dPredictS m f).1 :=
  ⟨rfl, rfl⟩

/-- Helper: the BMI branch contributes at most one factor, named BMI. -/
theorem bmiFactor_names (x : ℚ) :
    ((bmiFactor x).map (fun c => c.name)).Sublist [("BMI")] := by
  unfold bmiFactor
  split_ifs <;> simp

/-- Helper: the glucose branch contributes at most one factor, named
Glucose. -/
theorem glucoseFactor_names (x : ℚ) :
    ((glucoseFactor x).map (fun c => c.name)).Sublist [("Glucose")] := by
  unfold glucoseFactor
  split_ifs <;> simp

/-- Helper: the age branch contributes at most one factor, named Age. -/
theorem ageFactor_names (x : ℚ) :
    ((ageFactor x).map (fun c => c.name)).Sublist [("Age")] := by
  unfold ageFactor
  split_ifs <;> simp

/-- Helper: the blood-pressure branch contributes at most one factor,
named Blood Pressure. -/
theorem bpFactor_names (x : ℚ) :
    ((bpFactor x).map (fun c => c.name)).Sublist [("Blood Pressure")] := by
  unfold bpFactor
  split_ifs <;> simp

/-- Helper: the pedigree branch contributes at most one factor, named
Family History. -/
theorem pedigreeFactor_names (x : ℚ) :
    ((pedigreeFactor x).map (fun c => c.name)).Sublist
      [("Family History")] := by
  unfold pedigreeFactor
  split_ifs <;> simp

/-- Claim C8 amended: the contributing factors of the diabetes explainer
appear in the fixed source order BMI, Glucose, Age, Blood Pressure,
Family History (each present or absent according to its clinical
threshold); the list is not ordered by impact severity — see the
counterexample, where a medium-impact BMI factor precedes a high-impact
Glucose factor. -/
theorem c8_amended (f : DFeatures) :
    ((diabetes_contributing_factors f).map (fun c => c.name)).Sublist
      [("BMI"), ("Glucose"), ("Age"), ("Blood Pressure"),
       ("Family History")] := by
  unfold diabetes_contributing_factors
  simp only [List.map_append]
  show List.Sublist _ (((([("BMI")] ++ [("Glucose")]) ++ [("Age")]) ++
    [("Blood Pressure")]) ++ [("Family History")])
  exact ((((bmiFactor_names _).append (glucoseFactor_names _)).append
    (ageFactor_names _)).append (bpFactor_names _)).append
    (pedigreeFactor_names _)

/-- Claim C8 counterexample: on an input with BMI 27 (overweight, medium
impact) and glucose 148 (diabetic, high impact) the factor list is
[medium, high], so a high-impact factor does not precede a medium-impact
one. -/
theorem c8_counterexample :
    ((diabetes_contributing_factors dInputC8).map (fun c => c.impact)) =
      [("medium"), ("high")] ∧
    ¬ ((diabetes_contributing_factors dInputC8).map
        (fun c => c.impact)).Pairwise
          (fun a b => ¬(a = "medium" ∧ b = "high")) := by
  have hmap : ((diabetes_contributing_factors dInputC8).map
      (fun c => c.impact)) = [("medium"), ("high")] := by
    norm_num [diabetes_contributing_factors, bmiFactor, glucoseFactor,
      ageFactor, bpFactor, pedigreeFactor, dInputC8, dVal]
  refine ⟨hmap, ?_⟩
  rw [hmap]
  decide

/-- Claim C9: for every diabetes input with a BMI of at least 30 and a
glucose of at least 126, the contributing factors include a BMI factor
and a Glucose factor, both of high impact, and for every model artifact
and validated input the risk_level of the prediction result is exactly
get_risk_level applied to the classifier's positive-class probability
(the end-to-end scenario input is the witness). -/
theorem c9_scenario (f : DFeatures) (x y : ℚ) (m : DiabetesModel)
    (hbmi : f.bmi = some x) (hx : 30 ≤ x)
    (hglu : f.glucose = some y) (hy : 126 ≤ y)
    (hval : (validate_input f).1 = true) :
    (∃ c ∈ diabetes_contributing_factors f,
      c.name = "BMI" ∧ c.impact = "high") ∧
    (∃ c ∈ diabetes_contributing_factors f,
      c.name = "Glucose" ∧ c.impact = "high") ∧
    (dPredict m f).map (fun r => r.risk_level) =
      Except.ok (get_risk_level
        (m.predict_proba (m.scale (prepare_features f))).2) := by
  have hvx : dVal f.bmi = x := by simp [dVal, hbmi]
  have hvy : dVal f.glucose = y := by simp [dVal, hglu]
  refine ⟨?_, ?_, ?_⟩
  · refine ⟨{ name := "BMI", value := x, impact := "high",
              modifiable := true,
              description := "BMI of " ++ toString x ++
                " is in the obese range (≥30)" }, ?_, rfl, rfl⟩
    unfold diabetes_contributing_factors
    apply List.mem_append_left
    apply List.mem_append_left
    apply List.mem_append_left
    apply List.mem_append_left
    rw [hvx]
    unfold bmiFactor
    rw [if_pos hx]
    exact List.mem_singleton.mpr rfl
  · refine ⟨{ name := "Glucose", value := y, impact := "high",
              modifiable := true,
              description := "Fasting glucose of " ++ toString y ++
                " mg/dL is in diabetic range (≥126)" }, ?_, rfl, rfl⟩
    unfold diabetes_contributing_factors
    apply List.mem_append_left
    apply List.mem_append_left
    apply List.mem_append_left
    apply List.mem_append_right
    rw [hvy]
    unfold glucoseFactor
    rw [if_pos hy]
    exact List.mem_singleton.mpr rfl
  · simp [dPredict, hval, Except.map]

/-- Claim C9 witness: the end-to-end scenario input (Pregnancies 2,
Glucose 148, BloodPressure 72, SkinThickness 35, Insulin 0, BMI 33.6,
pedigree 0.627, Age 50) is valid, has BMI at least 30 and glucose at
least 126, and the factor and risk-level conclusions hold for it. -/
theorem c9_witness :
    dInputC9.bmi = some 33.6 ∧ (30 : ℚ) ≤ 33.6 ∧
    dInputC9.glucose = some 148 ∧ (126 : ℚ) ≤ 148 ∧
    (validate_input dInputC9).1 = true ∧
    ((∃ c ∈ diabetes_contributing_factors dInputC9,
       c.name = "BMI" ∧ c.impact = "high") ∧
     (∃ c ∈ diabetes_contributing_factors dInputC9,
       c.name = "Glucose" ∧ c.impact = "high") ∧
     (dPredict dm0 dInputC9).map (fun r => r.risk_level) =
       Except.ok (get_risk_level
         (dm0.predict_proba
           (dm0.scale (prepare_features dInputC9))).2)) := by
  have hval : (validate_input dInputC9).1 = true := by
    have hm : firstMissing dInputC9 requiredFields = none := rfl
    have l1 : dLookup dInputC9 ("Pregnancies") = some 2 := rfl
    have l2 : dLookup dInputC9 ("Glucose") = some 148 := rfl
    have l3 : dLookup dInputC9 ("BloodPressure") = some 72 := rfl
    have l4 : dLookup dInputC9 ("SkinThickness") = some 35 := rfl
    have l5 : dLookup dInputC9 ("Insulin") = some 0 := rfl
    have l6 : dLookup dInputC9 ("BMI") = some 33.6 := rfl
    have l7 : dLookup dInputC9 ("DiabetesPedigreeFunction") =
        some 0.627 := rfl
    have l8 : dLookup dInputC9 ("Age") = some 50 := rfl
    have hr : firstOutOfRange dInputC9 validations = none := by
      norm_num [firstOutOfRange, validations, l1, l2, l3, l4, l5, l6,
        l7, l8]
    unfold validate_input
    rw [hm, hr]
  have h := c9_scenario dInputC9 33.6 148 dm0 rfl (by norm_num) rfl
    (by norm_num) hval
  exact ⟨rfl, by norm_num, rfl, by norm_num, hval, h⟩

/-- Claim C10: in the PCOS feature mapping the Waist_Hip_Ratio entry is
the constant 0.85 for every input, and each optional measurement that is
omitted or provided as exactly 0 is replaced by its fixed default
(Follicle_L 6, Follicle_R 6, AMH 3.0, LH 8.0, FSH 6.0), because the
substitution uses Python truthiness. -/
theorem c10_defaults (i : PCOSInput) :
    (pcos_feature_mapping i).lookup ("Waist_Hip_Ratio") = some (85 / 100) ∧
    (i.follicle_count_l = none ∨ i.follicle_count_l = some 0 →
      (pcos_feature_mapping i).lookup ("Follicle_L") = some 6) ∧
    (i.follicle_count_r = none ∨ i.follicle_count_r = some 0 →
      (pcos_feature_mapping i).lookup ("Follicle_R") = some 6) ∧
    (i.amh = none ∨ i.amh = some 0 →
      (pcos_feature_mapping i).lookup ("AMH") = some 3) ∧
    (i.lh = none ∨ i.lh = some 0 →
      (pcos_feature_mapping i).lookup ("LH") = some 8) ∧
    (i.fsh = none ∨ i.fsh = some 0 →
      (pcos_feature_mapping i).lookup ("FSH") = some 6) := by
  have hfl : (pcos_feature_mapping i).lookup ("Follicle_L") =
      some (pyOr i.follicle_count_l 6) := rfl
  have hfr : (pcos_feature_mapping i).lookup ("Follicle_R") =
      some (pyOr i.follicle_count_r 6) := rfl
  have hamh : (pcos_feature_mapping i).lookup ("AMH") =
      some (pyOr i.amh 3) := rfl
  have hlh : (pcos_feature_mapping i).lookup ("LH") =
      some (pyOr i.lh 8) := rfl
  have hfsh : (pcos_feature_mapping i).lookup ("FSH") =
      some (pyOr i.fsh 6) := rfl
  refine ⟨rfl, ?_, ?_, ?_, ?_, ?_⟩ <;>
    rintro (h | h) <;>
      simp [hfl, hfr, hamh, hlh, hfsh, h, pyOr]

/-- Claim C10 witness: on a concrete PCOS input omitting every optional
measurement except an LH provided as exactly 0, the mapping holds the
defaults Follicle_L 6, Follicle_R 6, AMH 3, LH 8, FSH 6 and the constant
Waist_Hip_Ratio 0.85. -/
theorem c10_witness :
    (pcosInputW.lh = none ∨ pcosInputW.lh = some 0) ∧
    (pcos_feature_mapping pcosInputW).lookup ("Waist_Hip_Ratio") =
      some (85 / 100) ∧
    (pcos_feature_mapping pcosInputW).lookup ("Follicle_L") = some 6 ∧
    (pcos_feature_mapping pcosInputW).lookup ("Follicle_R") = some 6 ∧
    (pcos_feature_mapping pcosInputW).lookup ("AMH") = some 3 ∧
    (pcos_feature_mapping pcosInputW).lookup ("LH") = some 8 ∧
    (pcos_feature_mapping pcosInputW).lookup ("FSH") = some 6 := by
  have h := c10_defaults pcosInputW
  exact ⟨Or.inr rfl, h.1, h.2.1 (Or.inl rfl), h.2.2.1 (Or.inl rfl),
    h.2.2.2.1 (Or.inl rfl), h.2.2.2.2.1 (Or.inr rfl),
    h.2.2.2.2.2 (Or.inl rfl)⟩

/-- Claim C6: at the bucket boundaries the inference-time transformer and
the training pipeline disagree — pd.cut uses right-closed intervals while
prepare_features uses strict upper bounds, so BMI 18.5/25/30 and glucose
100/125 land one bucket higher at inference than at training (the age
boundaries 30/45/60 do agree, because inference compares age with ≤). -/
theorem c6_boundary_divergence :
    bmi_cat 18.5 = 1 ∧ trainBMICategory 18.5 = some 0 ∧
    bmi_cat 25 = 2 ∧ trainBMICategory 25 = some 1 ∧
    bmi_cat 30 = 3 ∧ trainBMICategory 30 = some 2 ∧
    glucose_cat 100 = 1 ∧ trainGlucoseCategory 100 = some 0 ∧
    glucose_cat 125 = 2 ∧ trainGlucoseCategory 125 = some 1 ∧
    age_group 30 = 0 ∧ trainAgeGroup 30 = some 0 ∧
    age_group 45 = 1 ∧ trainAgeGroup 45 = some 1 ∧
    age_group 60 = 2 ∧ trainAgeGroup 60 = some 2 := by
  norm_num [bmi_cat, glucose_cat, age_group, trainBMICategory,
    trainGlucoseCategory, trainAgeGroup, pdCut]

/-- Helper: the missing-field scan returns none exactly when every listed
field is present. -/
theorem firstMissing_eq_none_iff (f : DFeatures) (l : List String) :
    firstMissing f l = none ↔ ∀ x ∈ l, dLookup f x ≠ none := by
  induction l with
  | nil => simp [firstMissing]
  | cons hd tl ih =>
    cases hopt : dLookup f hd with
    | none => simp [firstMissing, hopt, List.forall_mem_cons]
    | some v => simp [firstMissing, hopt, ih, List.forall_mem_cons]

/-- Helper: the range scan returns none exactly when every listed field
that is present satisfies its bounds. -/
theorem firstOutOfRange_eq_none_iff (f : DFeatures)
    (l : List (String × ℚ × ℚ)) :
    firstOutOfRange f l = none ↔
      ∀ t ∈ l, ∀ v, dLookup f t.1 = some v →
        t.2.1 ≤ v ∧ v ≤ t.2.2 := by
  induction l with
  | nil => simp [firstOutOfRange]
  | cons hd tl ih =>
    obtain ⟨field, lo, hi⟩ := hd
    cases hopt : dLookup f field with
    | none => simp [firstOutOfRange, hopt, ih, List.forall_mem_cons]
    | some v =>
      by_cases hr : lo ≤ v ∧ v ≤ hi
      · simp [firstOutOfRange, hopt, hr, ih, List.forall_mem_cons]
      · simp [firstOutOfRange, hopt, hr, List.forall_mem_cons]

/-- Helper: collecting the heart features succeeds whenever every named
feature is present in the input dict. -/
theorem heartCollect_isOk (l : List String) (inp : String → Option ℚ)
    (h : ∀ x ∈ l, inp x ≠ none) : (heartCollect inp l).isOk = true := by
  induction l with
  | nil => rfl
  | cons hd tl ih =>
    cases hx : inp hd with
    | none => exact absurd hx (h hd (List.mem_cons_self hd tl))
    | some v =>
      have htl := ih (fun x hx' => h x (List.mem_cons_of_mem hd hx'))
      unfold heartCollect
      rw [hx]
      cases hc : heartCollect inp tl with
      | error e => rw [hc] at htl; exact absurd htl (by simp [Except.isOk, Except.toBool])
      | ok vs => simp [Except.isOk, Except.toBool]

/-- Claim C4 amended: the diabetes validator accepts exactly the inputs
with every required field present and every field inside its bounds, its
error message names the offending field (and for a range violation the
allowed bounds), and on a rejected input predict produces an error and no
result; the heart predictor checks only presence — its feature
preparation succeeds for every input dict that has all thirteen features,
with no range check (see the counterexample for an out-of-range value
reaching inference). -/
theorem c4_amended (m : DiabetesModel) (f : DFeatures) :
    ((validate_input f).1 = true ↔
      (∀ x ∈ requiredFields, dLookup f x ≠ none) ∧
      (∀ t ∈ validations, ∀ v, dLookup f t.1 = some v →
        t.2.1 ≤ v ∧ v ≤ t.2.2)) ∧
    (∀ x, firstMissing f requiredFields = some x →
      validate_input f = (false, "Missing required field: " ++ x)) ∧
    (∀ t : String × ℚ × ℚ, firstMissing f requiredFields = none →
      firstOutOfRange f validations = some t →
      validate_input f = (false, t.1 ++ " out of range (" ++
        toString t.2.1 ++ "-" ++ toString t.2.2 ++ ")")) ∧
    ((validate_input f).1 = false → (dPredict m f).isOk = false) ∧
    (∀ inp : String → Option ℚ,
      (∀ x ∈ heartFeatureNames, inp x ≠ none) →
        (heart_prepare_features inp).isOk = true) := by
  refine ⟨?_, ?_, ?_, ?_,
    fun inp hall => heartCollect_isOk heartFeatureNames inp hall⟩
  · unfold validate_input
    cases hm : firstMissing f requiredFields with
    | some x =>
      refine iff_of_false (by simp) ?_
      rintro ⟨h1, _⟩
      rw [← firstMissing_eq_none_iff] at h1
      rw [hm] at h1
      exact absurd h1 (by simp)
    | none =>
      cases hr : firstOutOfRange f validations with
      | some t =>
        refine iff_of_false (by simp) ?_
        rintro ⟨_, h2⟩
        rw [← firstOutOfRange_eq_none_iff] at h2
        rw [hr] at h2
        exact absurd h2 (by simp)
      | none =>
        refine iff_of_true rfl ?_
        exact ⟨(firstMissing_eq_none_iff f requiredFields).mp hm,
          (firstOutOfRange_eq_none_iff f validations).mp hr⟩
  · intro x hx
    unfold validate_input
    rw [hx]
  · rintro ⟨field, lo, hi⟩ h1 h2
    unfold validate_input
    rw [h1, h2]
  · intro hfalse
    simp [dPredict, hfalse, Except.isOk, Except.toBool]

/-- Claim C4 witness: a diabetes input with glucose 1000 is rejected by
the validator and predict yields no result, while the heart preparation
succeeds on a complete input dict. -/
theorem c4_witness :
    (validate_input dInputBad).1 = false ∧
    (dPredict dm0 dInputBad).isOk = false ∧
    (∀ x ∈ heartFeatureNames, heartInputStd x ≠ none) ∧
    (heart_prepare_features heartInputStd).isOk = true := by
  have h := c4_amended dm0 dInputBad
  have hv : (validate_input dInputBad).1 = false := rfl
  have hall : ∀ x ∈ heartFeatureNames, heartInputStd x ≠ none := by decide
  exact ⟨hv, h.2.2.2.1 hv, hall, h.2.2.2.2 heartInputStd hall⟩

/-- Claim C4 counterexample: the heart predictor runs to completion on an
input whose cholesterol (10000) is far outside its documented bounds
[100, 600] — no validation error is raised before scaling and
inference. -/
theorem c4_counterexample :
    (heartPredict hm0 heartInputHighChol).isOk = true ∧
    (heartInputHighChol ("chol")).getD 0 = 10000 ∧
    ¬(heartApiCholBounds.1 ≤ (10000 : ℚ) ∧
      (10000 : ℚ) ≤ heartApiCholBounds.2) := by
  refine ⟨?_, rfl, by norm_num [heartApiCholBounds]⟩
  have hprep : heart_prepare_features heartInputHighChol =
      Except.ok [55, 1, 0, 130, 10000, 0, 0, 150, 0, 1, 1, 0, 2] := rfl
  unfold heartPredict
  rw [hprep]
  rfl

/-- Helper: round3 stays between any two integer-thousandths bounds that
enclose its argument. -/
theorem round3_bounds (a b : ℤ) (q : ℚ) (ha : (a : ℚ) ≤ q * 1000)
    (hb : q * 1000 ≤ (b : ℚ)) :
    (a : ℚ) / 1000 ≤ round3 q ∧ round3 q ≤ (b : ℚ) / 1000 := by
  have hfl : ((⌊q * 1000⌋ : ℤ) : ℚ) ≤ q * 1000 := Int.floor_le _
  have han : a ≤ ⌊q * 1000⌋ := Int.le_floor.mpr ha
  have hnb : ⌊q * 1000⌋ ≤ b := by
    have h := Int.floor_mono hb
    rwa [Int.floor_intCast] at h
  unfold round3
  dsimp only
  split_ifs with h1 h2 h3
  · constructor
    · gcongr
      exact_mod_cast le_trans han (by omega)
    · gcongr
      have hx : ((⌊q * 1000⌋ : ℤ) : ℚ) < (b : ℚ) - 1 / 2 := by linarith
      have hy : ⌊q * 1000⌋ < b := by
        have : ((⌊q * 1000⌋ : ℤ) : ℚ) < (b : ℚ) := by linarith
        exact_mod_cast this
      exact_mod_cast hy
  · exact ⟨by gcongr, by gcongr⟩
  · exact ⟨by gcongr, by gcongr⟩
  · constructor
    · gcongr
      exact_mod_cast le_trans han (by omega)
    · gcongr
      have heq : q * 1000 - ((⌊q * 1000⌋ : ℤ) : ℚ) = 1 / 2 := le_antisymm
        (not_lt.mp h1) (not_lt.mp h2)
      have hx : ((⌊q * 1000⌋ : ℤ) : ℚ) < (b : ℚ) := by linarith
      have hy : ⌊q * 1000⌋ < b := by exact_mod_cast hx
      exact_mod_cast hy

/-- Claim C1 amended: for a binary probability pair the
calculate_confidence of the base predictor equals the rounded
max(|max_class_probability − 0.5| × 2, 0.5) and always lies in
[0.5, 1] — but only the diabetes predictor uses it; the heart and PCOS
predictors report the stored cross-validation roc_auc metric (defaults
0.85 and 0.8) as confidence, independent of the class probabilities. -/
theorem c1_amended (p0 p1 : ℚ) (h0 : 0 ≤ p0) (h1 : 0 ≤ p1)
    (hs : p0 + p1 = 1) :
    (1 / 2 ≤ calculate_confidence p0 p1 ∧ calculate_confidence p0 p1 ≤ 1) ∧
    (∀ (m : HeartModel) (inp : String → Option ℚ) (r : HeartResult),
      heartPredict m inp = Except.ok r →
        r.confidence = m.roc_auc.getD (85 / 100)) ∧
    (∀ (m : PCOSModel) (i : PCOSInput),
      (pcosPredict m i).confidence = m.roc_auc.getD (8 / 10)) := by
  refine ⟨?_, ?_, fun m i => rfl⟩
  · have hcc : calculate_confidence p0 p1 =
        round3 (max (|max p0 p1 - 1 / 2| * 2) (1 / 2)) := rfl
    rw [hcc]
    have hmax1 : max p0 p1 ≤ 1 := by
      apply max_le <;> linarith
    have hmax0 : 1 / 2 ≤ max p0 p1 := by
      rcases le_total p0 p1 with h | h
      · rw [max_eq_right h]; linarith
      · rw [max_eq_left h]; linarith
    have habs : |max p0 p1 - 1 / 2| = max p0 p1 - 1 / 2 :=
      abs_of_nonneg (by linarith)
    have hcl : 1 / 2 ≤ max (|max p0 p1 - 1 / 2| * 2) (1 / 2) :=
      le_max_right _ _
    have hcu : max (|max p0 p1 - 1 / 2| * 2) (1 / 2) ≤ 1 := by
      apply max_le
      · rw [habs]; linarith
      · norm_num
    have hb := round3_bounds 500 1000
      (max (|max p0 p1 - 1 / 2| * 2) (1 / 2))
      (by push_cast; linarith) (by push_cast; linarith)
    constructor
    · have h := hb.1
      norm_num at h
      exact h
    · have h := hb.2
      norm_num at h
      exact h
  · intro m inp r h
    unfold heartPredict at h
    cases hp : heart_prepare_features inp with
    | error e =>
      rw [hp] at h
      exact absurd h (by simp)
    | ok feats =>
      rw [hp] at h
      injection h with h2
      rw [← h2]

/-- Claim C1 witness: the amended statement instantiated at the
probability pair (0.4, 0.6). -/
theorem c1_witness :
    (0 ≤ (2 / 5 : ℚ)) ∧ (0 ≤ (3 / 5 : ℚ)) ∧ ((2 / 5 : ℚ) + 3 / 5 = 1) ∧
    ((1 / 2 ≤ calculate_confidence (2 / 5) (3 / 5) ∧
        calculate_confidence (2 / 5) (3 / 5) ≤ 1) ∧
      (∀ (m : HeartModel) (inp : String → Option ℚ) (r : HeartResult),
        heartPredict m inp = Except.ok r →
          r.confidence = m.roc_auc.getD (85 / 100)) ∧
      (∀ (m : PCOSModel) (i : PCOSInput),
        (pcosPredict m i).confidence = m.roc_auc.getD (8 / 10))) := by
  have h := c1_amended (2 / 5) (3 / 5) (by norm_num) (by norm_num)
    (by norm_num)
  exact ⟨by norm_num, by norm_num, by norm_num, h⟩

/-- Claim C1 counterexample: with classifier probabilities (0.4, 0.6) the
claimed formula gives confidence 0.5, but the heart predictor reports
0.85 (its default roc_auc), so the claim fails for the heart disease
predictor. -/
theorem c1_counterexample :
    (heartPredict hm0 heartInputStd).map (fun r => r.confidence) =
      Except.ok (85 / 100) ∧
    calculate_confidence (2 / 5) (3 / 5) = 1 / 2 ∧
    (85 / 100 : ℚ) ≠ 1 / 2 := by
  refine ⟨?_, ?_, by norm_num⟩
  · have hprep : heart_prepare_features heartInputStd =
        Except.ok [55, 1, 0, 130, 246, 0, 0, 150, 0, 1, 1, 0, 2] := rfl
    unfold heartPredict
    rw [hprep]
    rfl
  · have hcc : calculate_confidence (2 / 5) (3 / 5) =
        round3 (max (|max (2 / 5 : ℚ) (3 / 5) - 1 / 2| * 2) (1 / 2)) := rfl
    rw [hcc]
    have h1 : max (2 / 5 : ℚ) (3 / 5) = 3 / 5 := by norm_num
    rw [h1]
    have h2 : |(3 / 5 : ℚ) - 1 / 2| = 1 / 10 := by
      rw [abs_of_nonneg]
      · norm_num
      · norm_num
    rw [h2]
    have h3 : max ((1 / 10 : ℚ) * 2) (1 / 2) = 1 / 2 := by
      rw [max_eq_right]
      norm_num
    rw [h3]
    unfold round3
    norm_num

end AIHealth
